import Mathlib

/-!
# Trivia API — shallow embedding and verification

This file embeds the request-handling core of the trivia REST API
(`backend/flaskr/__init__.py`) in Lean and proves the specified properties
of its endpoints: pagination windowing, substring search, category
filtering, quiz selection with exclusion, creation/deletion, and the
error-envelope contract.

The persistence layer (`models.py`, the "Storage Gateway") is not part of
the embedded source; its operations (insert with a fresh identifier,
delete by identifier, primary-key lookup) are modelled from the spec's
storage-gateway contract where noted.
-/

namespace Trivia

/-- JSON values as produced by `jsonify`: object keys are strings
(Python int keys are serialized to their decimal string by `jsonify`). -/
inductive Json where
  | null : Json
  | bool (b : Bool) : Json
  | num (n : Int) : Json
  | str (s : String) : Json
  | arr (elems : List Json) : Json
  | obj (fields : List (String × Json)) : Json

/-- Look up a key of a JSON object (`none` on non-objects / missing keys). -/
def Json.lookup : Json → String → Option Json
  | .obj fields, k => List.lookup k fields
  | _, _ => none

/-- A Question row: identifier, question text, answer text, difficulty,
and the category reference (an integer foreign key, not validated). -/
structure Question where
  id : Nat
  question : String
  answer : String
  difficulty : Int
  category : Nat
deriving DecidableEq, Repr

/-- A Category row: identifier and human-readable label. -/
structure Category where
  id : Nat
  type : String
deriving DecidableEq, Repr

/-- `Question.format()` from models.py (modelled from the spec: formats a
record into the flat JSON object `\x7bid, question, answer, difficulty,
category\x7d`). -/
def Question.format (q : Question) : Json :=
  .obj [("id", .num q.id), ("question", .str q.question),
        ("answer", .str q.answer), ("difficulty", .num q.difficulty),
        ("category", .num q.category)]

/-- The stored state seen through the Storage Gateway: the Questions and
Categories tables, plus the next fresh question identifier (spec §3:
identifiers are assigned by storage on creation and never reused). -/
structure DB where
  questions : List Question
  categories : List Category
  nextId : Nat
deriving DecidableEq, Repr

/-- Well-formedness of the stored state, from the spec's data model:
every question identifier was assigned by the gateway (hence below the
fresh-id counter) and identifiers are unique. -/
def DB.WF (st : DB) : Prop :=
  (∀ q ∈ st.questions, q.id < st.nextId) ∧
    (st.questions.map Question.id).Nodup

/-- An HTTP response: status code and JSON body. -/
structure Response where
  status : Nat
  body : Json

/-- The fixed error envelope shared by all four error handlers. -/
def errorResponse (code : Nat) (msg : String) : Response :=
  ⟨code, .obj [("success", .bool false), ("message", .str msg)]⟩

/-- `@app.errorhandler(400)` — `bad_request`. -/
def bad_request : Response := errorResponse 400 "Bad request"

/-- `@app.errorhandler(404)` — `not_found`. -/
def not_found : Response := errorResponse 404 "Not found"

/-- `@app.errorhandler(422)` — `unprocessable_entity`. -/
def unprocessable_entity : Response := errorResponse 422 "Unprocessable entity"

/-- `@app.errorhandler(500)` — `internal_server_error`; this is also the
response Flask produces for an exception that escapes a handler. -/
def internal_server_error : Response := errorResponse 500 "Internal server error"

/-- The `\x7bcategory.id: category.type\x7d` dict built by the handlers,
as serialized by `jsonify`: integer keys become decimal-string keys. -/
def categoriesJson (categories : List Category) : Json :=
  .obj (categories.map fun c => (toString c.id, .str c.type))

/-- `GET /categories` — `get_categories`. -/
def get_categories (st : DB) : Response :=
  let categories := st.categories
  if categories.length = 0 then
    not_found
  else
    ⟨200, .obj [("success", .bool true),
                ("categories", categoriesJson categories)]⟩

/-- Python slice-bound normalization for a list of length `n`: a negative
index counts from the end (clamped at 0), a nonnegative one is clamped
at `n`. -/
def pySliceIdx (n : Nat) (i : Int) : Nat :=
  if i < 0 then (i + n).toNat else min i.toNat n

/-- Python's `xs[a:b]` on a list. -/
def pySlice (xs : List α) (a b : Int) : List α :=
  (xs.take (pySliceIdx xs.length b)).drop (pySliceIdx xs.length a)

/-- `GET /questions?page=N` — `get_questions`. `page` is an `Int`: the
query parameter is parsed with `type=int` and may be negative. -/
def get_questions (st : DB) (page : Int) : Response :=
  let start : Int := (page - 1) * 10
  let stop : Int := start + 10
  let formatted_questions := st.questions.map Question.format
  if (pySlice formatted_questions start stop).length = 0 then
    not_found
  else
    ⟨200, .obj [("success", .bool true),
                ("questions", .arr (pySlice formatted_questions start stop)),
                ("totalQuestions", .num formatted_questions.length),
                ("categories", categoriesJson st.categories),
                ("currentCategory", .str "")]⟩

/-- `DELETE /questions/<id>` — `delete_question`. The primary-key lookup
`query(Question).get(id)` and `question.delete()` are modelled from the
spec's gateway contract: look up by identifier; if present, remove that
row permanently (identifiers are unique under `DB.WF`). -/
def delete_question (st : DB) (question_id : Nat) : Response × DB :=
  match st.questions.find? (fun q => q.id == question_id) with
  | none => (unprocessable_entity, st)
  | some _ =>
      (⟨200, .obj [("success", .bool true),
                   ("message", .str "Question successfully deleted")]⟩,
       { st with questions := st.questions.filter (fun q => q.id != question_id) })

/-- The JSON payload of `POST /questions`, field by field: `none` means
the key is absent from the payload, `some none` that it is present with
value `null`, `some (some v)` that it carries the value `v`. -/
structure CreatePayload where
  question : Option (Option String)
  answer : Option (Option String)
  difficulty : Option (Option Int)
  category : Option (Option Nat)
deriving DecidableEq, Repr

/-- `POST /questions` — `create_question`. The guard
`data["q"] is None or data["a"] is None or ...` evaluates left to right:
subscripting an absent key raises `KeyError`, which escapes the handler
and is rendered by the 500 error handler; a present-but-null field
short-circuits to `abort(422)`. `Question.insert()` is modelled from the
spec's gateway contract: append the row with a fresh identifier. -/
def create_question (st : DB) (data : CreatePayload) : Response × DB :=
  match data.question with
  | none => (internal_server_error, st)
  | some q? =>
    if q?.isNone then (unprocessable_entity, st) else
    match data.answer with
    | none => (internal_server_error, st)
    | some a? =>
      if a?.isNone then (unprocessable_entity, st) else
      match data.difficulty with
      | none => (internal_server_error, st)
      | some d? =>
        if d?.isNone then (unprocessable_entity, st) else
        match data.category with
        | none => (internal_server_error, st)
        | some c? =>
          if c?.isNone then (unprocessable_entity, st) else
          match q?, a?, d?, c? with
          | some q, some a, some d, some c =>
              (⟨200, .obj [("success", .bool true),
                           ("message", .str "Question successfully created")]⟩,
               { st with
                  questions := st.questions ++
                    [{ id := st.nextId, question := q, answer := a,
                       difficulty := d, category := c }],
                  nextId := st.nextId + 1 })
          | _, _, _, _ => (unprocessable_entity, st)

mutual

/-- One step of SQL `LIKE`/`ILIKE` pattern matching on the project's
PostgreSQL backend (the semantics of the `Question.question.ilike(...)`
filter delegated to the database): `%` matches any sequence of
characters, `_` matches any single character, the default escape
character backslash makes the following pattern character match
literally (PostgreSQL accepts any escaped character), and any other
pattern character matches case-insensitively. A pattern ending in a lone
escape character is rejected by PostgreSQL with an error and matches
nothing; the handler's `%term%` patterns never end that way, since a
trailing backslash in the term escapes the final `%`. -/
def sqlLikeMatch : List Char → List Char → Bool
  | [], s => s.isEmpty
  | c :: p, s =>
      if c = '\\' then sqlLikeEsc p s
      else if c = '%' then
        s.tails.any (fun suff => sqlLikeMatch p suff)
      else if c = '_' then
        match s with
        | [] => false
        | _ :: s' => sqlLikeMatch p s'
      else
        match s with
        | [] => false
        | d :: s' => (c.toLower == d.toLower) && sqlLikeMatch p s'

/-- The character after the escape matches literally (case-insensitively
under `ILIKE`); a pattern that ends in the lone escape matches nothing
(PostgreSQL rejects it). -/
def sqlLikeEsc : List Char → List Char → Bool
  | [], _ => false
  | e :: p, s =>
      match s with
      | [] => false
      | d :: s' => (e.toLower == d.toLower) && sqlLikeMatch p s'

end

/-- The pattern `f"%\x7bsearch_term\x7d%"` passed to `ilike`. -/
def ilikePattern (search_term : String) : List Char :=
  '%' :: search_term.data ++ ['%']

/-- `POST /questions/search` — `search_questions`. The
`filter(Question.question.ilike(f"%{term}%"))` query is the database-side
pattern match embodied by `sqlLikeMatch`. -/
def search_questions (st : DB) (search_term : String) : Response :=
  let questions := st.questions.filter
    (fun q => sqlLikeMatch (ilikePattern search_term) q.question.data)
  let formatted_questions := questions.map Question.format
  if formatted_questions.length = 0 then
    not_found
  else
    ⟨200, .obj [("success", .bool true),
                ("questions", .arr formatted_questions),
                ("totalQuestions", .num formatted_questions.length),
                ("currentCategory", .null)]⟩

/-- `GET /categories/<id>/questions` — `get_questions_by_category`.
When the filtered list is nonempty but `query(Category).get(category_id)`
returns `None`, the handler evaluates `None.type`: the `AttributeError`
escapes and is rendered by the 500 error handler. -/
def get_questions_by_category (st : DB) (category_id : Nat) : Response :=
  let questions := st.questions.filter (fun q => q.category == category_id)
  let current_category := st.categories.find? (fun c => c.id == category_id)
  let formatted_questions := questions.map Question.format
  if formatted_questions.length = 0 then
    not_found
  else
    match current_category with
    | none => internal_server_error
    | some c =>
        ⟨200, .obj [("success", .bool true),
                    ("questions", .arr formatted_questions),
                    ("totalQuestions", .num formatted_questions.length),
                    ("currentCategory", .str c.type)]⟩

/-- `POST /quizzes` — `get_quiz_question`. `r` is the draw of the
process-wide random source: `random.choice(xs)` returns `xs[r % len xs]`.
The source filters the formatted dicts by their `"id"` key, which is
exactly the question's `id` field, so the exclusion is applied to the
rows before formatting; when the filtered list is empty the handler sets
`random_question = None` and aborts 404, which coincides with `xs[i]?`
returning `none` on the empty list. -/
def get_quiz_question (st : DB) (previous_questions : List Nat)
    (quiz_category_id : Nat) (r : Nat) : Response :=
  let questions :=
    if quiz_category_id = 0 then st.questions
    else st.questions.filter (fun q => q.category == quiz_category_id)
  let filtered_questions :=
    questions.filter (fun q => !(previous_questions.contains q.id))
  let random_question := filtered_questions[r % filtered_questions.length]?
  match random_question with
  | none => not_found
  | some q =>
      ⟨200, .obj [("success", .bool true), ("question", q.format)]⟩

/-- A request to any of the seven endpoints. Payload-level randomness for
the quiz endpoint is carried as the `r` component. -/
inductive Request where
  | getCategories : Request
  | getQuestions (page : Int) : Request
  | deleteQuestion (question_id : Nat) : Request
  | postQuestion (data : CreatePayload) : Request
  | searchQuestions (search_term : String) : Request
  | getQuestionsByCategory (category_id : Nat) : Request
  | postQuizzes (previous_questions : List Nat) (quiz_category_id : Nat)
      (r : Nat) : Request
deriving DecidableEq, Repr

/-- Dispatch: route a request to its handler, returning the response and
the stored state afterwards. The read-side handlers only query the
gateway, so they return the state unchanged. -/
def handle (st : DB) : Request → Response × DB
  | .getCategories => (get_categories st, st)
  | .getQuestions page => (get_questions st page, st)
  | .deleteQuestion question_id => delete_question st question_id
  | .postQuestion data => create_question st data
  | .searchQuestions search_term => (search_questions st search_term, st)
  | .getQuestionsByCategory category_id =>
      (get_questions_by_category st category_id, st)
  | .postQuizzes previous_questions quiz_category_id r =>
      (get_quiz_question st previous_questions quiz_category_id r, st)

/-- The stored state after a sequence of requests. -/
def runAll (st : DB) : List Request → DB
  | [] => st
  | req :: reqs => runAll (handle st req).2 reqs

/-- The read-side requests (claim C10): the five endpoints that never
write. -/
def Request.isRead : Request → Bool
  | .getCategories => true
  | .getQuestions _ => true
  | .searchQuestions _ => true
  | .getQuestionsByCategory _ => true
  | .postQuizzes _ _ _ => true
  | .deleteQuestion _ => false
  | .postQuestion _ => false

/-! ## Concrete states used by examples, witnesses and counterexamples -/

/-- The six seeded categories of the trivia database. -/
def seededDB : DB :=
  ⟨[], [⟨1, "Science"⟩, ⟨2, "Art"⟩, ⟨3, "Geography"⟩, ⟨4, "History"⟩,
        ⟨5, "Entertainment"⟩, ⟨6, "Sports"⟩], 1⟩

/-- A state with 25 questions (ids 1..25), used for the negative-page
behaviour. -/
def pageDB : DB :=
  ⟨(List.range 25).map (fun i => ⟨i + 1, "q", "a", 1, 1⟩), [⟨1, "Science"⟩], 26⟩

/-- A state with one question whose text is `"a"`, used for the search
counterexample. -/
def searchDB : DB := ⟨[⟨1, "a", "b", 1, 1⟩], [⟨1, "Science"⟩], 2⟩

/-- A state with a question whose category reference `99` resolves to no
category row (the spec's §3 delegates referential integrity to storage
and `create` accepts any category id, so this state is reachable). -/
def danglingDB : DB := ⟨[⟨1, "q", "a", 1, 99⟩], [], 2⟩

/-- A create payload whose `question` key is absent from the JSON
entirely (the other three fields are present and non-null). -/
def absentQuestionPayload : CreatePayload :=
  ⟨none, some (some "an answer"), some (some 1), some (some 1)⟩

/-- Classification of a `POST /questions` payload by the handler's
left-to-right field scan (question, answer, difficulty, category). -/
inductive PayloadCheck where
  | allPresent : PayloadCheck
  | nullField : PayloadCheck
  | absentField : PayloadCheck
deriving DecidableEq, Repr

/-- Classify a single field: absent key, present-but-null, or a value. -/
def checkField : Option (Option α) → PayloadCheck
  | none => .absentField
  | some none => .nullField
  | some (some _) => .allPresent

/-- The handler's guard scans the four fields left to right and stops at
the first field that is absent (`KeyError`) or null (`abort(422)`). -/
def payloadCheck (data : CreatePayload) : PayloadCheck :=
  match checkField data.question with
  | .allPresent =>
    match checkField data.answer with
    | .allPresent =>
      match checkField data.difficulty with
      | .allPresent => checkField data.category
      | r => r
    | r => r
  | r => r

/-- Spec-side matching (spec §4.1: "case-insensitive substring match
against question text only"): `t` matches the front of `s` when their
characters agree after lowercasing, position by position. -/
def ciSubstringPre : List Char → List Char → Bool
  | [], _ => true
  | _ :: _, [] => false
  | c :: t, d :: s => (c.toLower == d.toLower) && ciSubstringPre t s

/-- Spec-side matching: `t` occurs as a case-insensitive substring of
`s`, i.e. matches the front of some suffix of `s`. -/
def ciSubstring (t s : List Char) : Bool :=
  s.tails.any (fun suff => ciSubstringPre t suff)

/-- The `questions` array of a response body (empty on error bodies). -/
def questionsArrOf (r : Response) : List Json :=
  match r.body.lookup "questions" with
  | some (.arr elems) => elems
  | _ => []

/-! ## C10 — read-side endpoints do not modify the stored state -/

/-- C10: the read-side operations — GET /categories, GET /questions,
POST /questions/search, GET /categories/{id}/questions and POST /quizzes
— leave the Questions and Categories tables (the whole stored state)
unchanged, on success and failure paths alike. -/
theorem read_requests_preserve_state (st : DB) (req : Request)
    (h : req.isRead = true) : (handle st req).2 = st := by
  cases req <;> simp_all [handle, Request.isRead]

/-- Witness for `read_requests_preserve_state` at a concrete state and
request. -/
theorem read_requests_preserve_state_witness :
    Request.isRead (.getQuestions 1) = true ∧
      (handle seededDB (.getQuestions 1)).2 = seededDB :=
  ⟨by decide, read_requests_preserve_state seededDB (.getQuestions 1) (by decide)⟩

/-! ## C9 — negative page values succeed with Python slice semantics -/

/-- C9: with 25 stored questions, `list(-1)` succeeds with status 200 and
returns the nonempty window `[25-20, 25-10)` of the formatted question
list — the slice bounds `(p-1)*10 = -20` and `-10` count from the end of
the list, per Python slice semantics. -/
theorem negative_page_returns_slice_from_end :
    (get_questions pageDB (-1)).status = 200 ∧
    (get_questions pageDB (-1)).body.lookup "questions" =
      some (.arr (((pageDB.questions.map Question.format).drop
        (pageDB.questions.length - 20)).take 10)) ∧
    (((pageDB.questions.map Question.format).drop
        (pageDB.questions.length - 20)).take 10).length = 10 :=
  ⟨rfl, rfl, rfl⟩

/-! ## C8 — GET /categories -/

/-- C8: GET /categories returns the complete stored category mapping with
identifiers serialized as decimal-string keys; the seeded six categories
yield exactly the mapping `\x7b"1":"Science", ..., "6":"Sports"\x7d`; an
empty category table yields NotFound. -/
theorem categories_contract (st : DB) :
    (st.categories = [] → get_categories st = not_found) ∧
    (st.categories ≠ [] →
      get_categories st =
        ⟨200, .obj [("success", .bool true),
          ("categories",
            .obj (st.categories.map fun c => (toString c.id, .str c.type)))]⟩) ∧
    get_categories seededDB =
      ⟨200, .obj [("success", .bool true),
        ("categories", .obj [("1", .str "Science"), ("2", .str "Art"),
          ("3", .str "Geography"), ("4", .str "History"),
          ("5", .str "Entertainment"), ("6", .str "Sports")])]⟩ := by
  refine ⟨fun h => ?_, fun h => ?_, rfl⟩
  · simp [get_categories, h]
  · have hlen : st.categories.length ≠ 0 := by
      simpa [List.length_eq_zero] using h
    simp [get_categories, hlen, categoriesJson]

/-- Witness for `categories_contract`: the seeded state is nonempty and
serialized as stated; the empty state yields NotFound. -/
theorem categories_contract_witness :
    (DB.categories ⟨[], [], 1⟩ = []) ∧
      get_categories ⟨[], [], 1⟩ = not_found ∧
      get_categories seededDB =
        ⟨200, .obj [("success", .bool true),
          ("categories", .obj [("1", .str "Science"), ("2", .str "Art"),
            ("3", .str "Geography"), ("4", .str "History"),
            ("5", .str "Entertainment"), ("6", .str "Sports")])]⟩ :=
  ⟨rfl, (categories_contract ⟨[], [], 1⟩).1 rfl, (categories_contract seededDB).2.2⟩

/-! ## C7 — the error-envelope contract -/

/-- Every `get_categories` response is a success or the fixed NotFound
envelope. -/
lemma get_categories_cases (st : DB) :
    (get_categories st).status = 200 ∨ get_categories st = not_found := by
  unfold get_categories
  dsimp only
  split
  · exact Or.inr rfl
  · exact Or.inl rfl

/-- Every `get_questions` response is a success or the fixed NotFound
envelope. -/
lemma get_questions_cases (st : DB) (page : Int) :
    (get_questions st page).status = 200 ∨ get_questions st page = not_found := by
  unfold get_questions
  dsimp only
  split
  · exact Or.inr rfl
  · exact Or.inl rfl

/-- Every `delete_question` response is a success or the fixed
Unprocessable envelope. -/
lemma delete_question_cases (st : DB) (question_id : Nat) :
    (delete_question st question_id).1.status = 200 ∨
      (delete_question st question_id).1 = unprocessable_entity := by
  unfold delete_question
  split
  · exact Or.inr rfl
  · exact Or.inl rfl

/-- Every `create_question` response is a success, the fixed
Unprocessable envelope, or the fixed InternalError envelope. -/
lemma create_question_cases (st : DB) (data : CreatePayload) :
    (create_question st data).1.status = 200 ∨
      (create_question st data).1 = unprocessable_entity ∨
      (create_question st data).1 = internal_server_error := by
  unfold create_question
  rcases data with ⟨_ | ⟨_ | q⟩, _ | ⟨_ | a⟩, _ | ⟨_ | d⟩, _ | ⟨_ | c⟩⟩ <;>
    simp

/-- Every `search_questions` response is a success or the fixed NotFound
envelope. -/
lemma search_questions_cases (st : DB) (term : String) :
    (search_questions st term).status = 200 ∨
      search_questions st term = not_found := by
  unfold search_questions
  dsimp only
  split
  · exact Or.inr rfl
  · exact Or.inl rfl

/-- Every `get_questions_by_category` response is a success, the fixed
NotFound envelope, or the fixed InternalError envelope. -/
lemma get_questions_by_category_cases (st : DB) (category_id : Nat) :
    (get_questions_by_category st category_id).status = 200 ∨
      get_questions_by_category st category_id = not_found ∨
      get_questions_by_category st category_id = internal_server_error := by
  unfold get_questions_by_category
  dsimp only
  split
  · exact Or.inr (Or.inl rfl)
  · split
    · exact Or.inr (Or.inr rfl)
    · exact Or.inl rfl

/-- Every `get_quiz_question` response is a success or the fixed NotFound
envelope. -/
lemma get_quiz_question_cases (st : DB) (prev : List Nat) (cid r : Nat) :
    (get_quiz_question st prev cid r).status = 200 ∨
      get_quiz_question st prev cid r = not_found := by
  unfold get_quiz_question
  dsimp only
  split
  · exact Or.inr rfl
  · exact Or.inl rfl

/-- C7: every failure response of every endpoint is the fixed envelope
`\x7bsuccess: false, message: m\x7d` where the status is one of
400/404/422/500 and `m` is the corresponding fixed string "Bad request",
"Not found", "Unprocessable entity" or "Internal server error"; no other
detail appears in an error body. -/
theorem error_envelope_contract (st : DB) (req : Request)
    (h : (handle st req).1.status ≠ 200) :
    (handle st req).1 = errorResponse 400 "Bad request" ∨
    (handle st req).1 = errorResponse 404 "Not found" ∨
    (handle st req).1 = errorResponse 422 "Unprocessable entity" ∨
    (handle st req).1 = errorResponse 500 "Internal server error" := by
  cases req with
  | getCategories =>
      rcases get_categories_cases st with h200 | hnf
      · exact absurd h200 h
      · exact Or.inr (Or.inl hnf)
  | getQuestions page =>
      rcases get_questions_cases st page with h200 | hnf
      · exact absurd h200 h
      · exact Or.inr (Or.inl hnf)
  | deleteQuestion question_id =>
      rcases delete_question_cases st question_id with h200 | hup
      · exact absurd h200 h
      · exact Or.inr (Or.inr (Or.inl hup))
  | postQuestion data =>
      rcases create_question_cases st data with h200 | hup | hie
      · exact absurd h200 h
      · exact Or.inr (Or.inr (Or.inl hup))
      · exact Or.inr (Or.inr (Or.inr hie))
  | searchQuestions term =>
      rcases search_questions_cases st term with h200 | hnf
      · exact absurd h200 h
      · exact Or.inr (Or.inl hnf)
  | getQuestionsByCategory category_id =>
      rcases get_questions_by_category_cases st category_id with h200 | hnf | hie
      · exact absurd h200 h
      · exact Or.inr (Or.inl hnf)
      · exact Or.inr (Or.inr (Or.inr hie))
  | postQuizzes prev cid r =>
      rcases get_quiz_question_cases st prev cid r with h200 | hnf
      · exact absurd h200 h
      · exact Or.inr (Or.inl hnf)

/-- Witness for `error_envelope_contract`: a page past the data produces
the fixed NotFound envelope. -/
theorem error_envelope_contract_witness :
    (handle seededDB (.getQuestions 100)).1.status ≠ 200 ∧
      ((handle seededDB (.getQuestions 100)).1 = errorResponse 400 "Bad request" ∨
       (handle seededDB (.getQuestions 100)).1 = errorResponse 404 "Not found" ∨
       (handle seededDB (.getQuestions 100)).1 = errorResponse 422 "Unprocessable entity" ∨
       (handle seededDB (.getQuestions 100)).1 = errorResponse 500 "Internal server error") :=
  ⟨by decide, error_envelope_contract seededDB (.getQuestions 100) (by decide)⟩

/-! ## C1 — pagination windowing -/

/-- For a nonnegative start bound, Python's `xs[a : a+10]` is the window
`drop a / take 10`. -/
lemma pySlice_of_nonneg (xs : List α) (a : Int) (ha : 0 ≤ a) :
    pySlice xs a (a + 10) = (xs.drop a.toNat).take 10 := by
  unfold pySlice pySliceIdx
  rw [if_neg (by omega), if_neg (by omega)]
  have h3 : (a + 10).toNat = a.toNat + 10 := by omega
  rw [h3, List.drop_take]
  rcases Nat.le_total xs.length a.toNat with hle | hle
  · have e1 : min a.toNat xs.length = xs.length := Nat.min_eq_right hle
    rw [e1, List.drop_length, List.drop_eq_nil_iff.mpr hle]
    simp
  · have e1 : min a.toNat xs.length = a.toNat := Nat.min_eq_left hle
    rw [e1]
    apply List.take_eq_take.mpr
    simp only [List.length_drop]
    omega

/-- C1: for every page `p ≥ 1` and stored state with `T` questions,
`GET /questions?page=p` returns the window `[(p-1)*10, (p-1)*10+10)` of
the full formatted question list — `min(10, max(0, T - 10*(p-1)))` items
— with `totalQuestions = T`; when that window is empty the response is
the NotFound envelope. -/
theorem list_pagination (st : DB) (page : Int) (hp : 1 ≤ page) :
    (min 10 (max 0 ((st.questions.length : Int) - 10 * (page - 1))) = 0 →
      get_questions st page = not_found) ∧
    (min 10 (max 0 ((st.questions.length : Int) - 10 * (page - 1))) ≠ 0 →
      (get_questions st page).status = 200 ∧
      (get_questions st page).body.lookup "questions" =
        some (.arr (((st.questions.map Question.format).drop
          ((page - 1) * 10).toNat).take 10)) ∧
      ((((st.questions.map Question.format).drop
          ((page - 1) * 10).toNat).take 10).length : Int) =
        min 10 (max 0 ((st.questions.length : Int) - 10 * (page - 1))) ∧
      (get_questions st page).body.lookup "totalQuestions" =
        some (.num st.questions.length)) := by
  have ha : (0 : Int) ≤ (page - 1) * 10 := by omega
  have hslice := pySlice_of_nonneg (st.questions.map Question.format)
    ((page - 1) * 10) ha
  unfold get_questions
  dsimp only
  rw [hslice]
  constructor
  · intro h0
    have hcond : (((st.questions.map Question.format).drop
        ((page - 1) * 10).toNat).take 10).length = 0 := by
      simp only [List.length_take, List.length_drop, List.length_map]
      omega
    rw [if_pos hcond]
  · intro hne
    have hcond : ¬ (((st.questions.map Question.format).drop
        ((page - 1) * 10).toNat).take 10).length = 0 := by
      simp only [List.length_take, List.length_drop, List.length_map]
      omega
    rw [if_neg hcond]
    refine ⟨rfl, rfl, ?_, ?_⟩
    · simp only [List.length_take, List.length_drop, List.length_map]
      omega
    · simp only [List.length_map]
      rfl

/-- Witness for `list_pagination`: page 1 of the 25-question state is
nonempty and served with status 200. -/
theorem list_pagination_witness :
    (1 : Int) ≤ 1 ∧
      min 10 (max 0 ((pageDB.questions.length : Int) - 10 * (1 - 1))) ≠ 0 ∧
      (get_questions pageDB 1).status = 200 :=
  ⟨by decide, by decide, ((list_pagination pageDB 1 (by decide)).2 (by decide)).1⟩

/-! ## C3 — quiz selection with exclusion -/

/-- C3: for every quiz request with previous-question ids `prev` and
category selector `cid`, the candidate set is all questions when
`cid = 0` and the category-filtered questions otherwise; every question
whose id is in `prev` is excluded; when the remaining set is empty the
response is the NotFound envelope, and otherwise (for every draw `r` of
the random source) the returned question is a member of the remaining
set, so its id is not in `prev` and, when `cid ≠ 0`, its category equals
`cid`. -/
theorem quiz_selection (st : DB) (prev : List Nat) (cid r : Nat) :
    ((if cid = 0 then st.questions
        else st.questions.filter (fun q => q.category == cid)).filter
          (fun q => !(prev.contains q.id)) = [] →
      get_quiz_question st prev cid r = not_found) ∧
    ((if cid = 0 then st.questions
        else st.questions.filter (fun q => q.category == cid)).filter
          (fun q => !(prev.contains q.id)) ≠ [] →
      ∃ q ∈ (if cid = 0 then st.questions
          else st.questions.filter (fun q => q.category == cid)).filter
            (fun q => !(prev.contains q.id)),
        get_quiz_question st prev cid r =
          ⟨200, .obj [("success", .bool true), ("question", q.format)]⟩ ∧
        q.id ∉ prev ∧ (cid ≠ 0 → q.category = cid)) := by
  set candidates := (if cid = 0 then st.questions
    else st.questions.filter (fun q => q.category == cid)) with hcand
  set filtered := candidates.filter (fun q => !(prev.contains q.id)) with hfil
  constructor
  · intro h0
    unfold get_quiz_question
    dsimp only
    rw [← hcand, ← hfil, h0]
    rfl
  · intro hne
    have hlen : 0 < filtered.length := List.length_pos.mpr hne
    have hidx : r % filtered.length < filtered.length := Nat.mod_lt _ hlen
    have hmem : filtered[r % filtered.length] ∈ filtered := List.getElem_mem hidx
    refine ⟨filtered[r % filtered.length], hmem, ?_, ?_, ?_⟩
    · unfold get_quiz_question
      dsimp only
      rw [← hcand, ← hfil, List.getElem?_eq_getElem hidx]
    · have := (List.mem_filter.mp hmem).2
      simpa using this
    · intro hcid
      have hmem' : filtered[r % filtered.length] ∈ candidates :=
        (List.mem_filter.mp hmem).1
      rw [hcand, if_neg hcid] at hmem'
      have := (List.mem_filter.mp hmem').2
      simpa using this

/-- Witness for `quiz_selection`: with the 25-question state, no
exclusions and the "all categories" selector, the quiz endpoint serves a
question with status 200. -/
theorem quiz_selection_witness :
    (if (0 : Nat) = 0 then pageDB.questions
        else pageDB.questions.filter (fun q => q.category == 0)).filter
          (fun q => !(([] : List Nat).contains q.id)) ≠ [] ∧
      (get_quiz_question pageDB [] 0 0).status = 200 := by
  refine ⟨by decide, ?_⟩
  obtain ⟨q, hq, heq, hid, hcat⟩ := (quiz_selection pageDB [] 0 0).2 (by decide)
  rw [heq]

/-! ## C2 — create validation -/

/-- C2 counterexample: a payload whose `question` key is absent entirely
is not rejected as Unprocessable (422) — subscripting the absent key
raises `KeyError` and the request fails with the 500 envelope instead
(nothing is persisted either way). -/
theorem create_absent_field_counterexample :
    (create_question seededDB absentQuestionPayload).1.status = 500 ∧
      (create_question seededDB absentQuestionPayload).1.status ≠ 422 ∧
      (create_question seededDB absentQuestionPayload).2 = seededDB :=
  ⟨rfl, by decide, rfl⟩

/-- C2 (amended): scanning the four fields in the order question,
answer, difficulty, category, if the first offending field is present
with a null value the request is rejected as Unprocessable (422); if the
first offending field is absent from the payload entirely the request
fails with the Internal Server Error envelope (500, unhandled
`KeyError`); in both cases no question is persisted — the stored state
is unchanged. With all four fields present and non-null the request
succeeds and exactly one question is appended. -/
theorem create_validation (st : DB) (data : CreatePayload) :
    (payloadCheck data = .nullField →
      create_question st data = (unprocessable_entity, st)) ∧
    (payloadCheck data = .absentField →
      create_question st data = (internal_server_error, st)) ∧
    (payloadCheck data = .allPresent →
      (create_question st data).1.status = 200 ∧
      (create_question st data).2.questions.length = st.questions.length + 1) := by
  rcases data with ⟨_ | ⟨_ | q⟩, _ | ⟨_ | a⟩, _ | ⟨_ | d⟩, _ | ⟨_ | c⟩⟩ <;>
    simp [create_question, payloadCheck, checkField]

/-- Witness for `create_validation`: a payload with a null `category`
field is rejected with 422 and the state is unchanged; a complete
payload appends one question. -/
theorem create_validation_witness :
    payloadCheck ⟨some (some "q"), some (some "a"), some (some 1), some none⟩ =
        .nullField ∧
      create_question seededDB
          ⟨some (some "q"), some (some "a"), some (some 1), some none⟩ =
        (unprocessable_entity, seededDB) ∧
      payloadCheck ⟨some (some "q"), some (some "a"), some (some 1), some (some 1)⟩ =
        .allPresent ∧
      (create_question seededDB
          ⟨some (some "q"), some (some "a"), some (some 1), some (some 1)⟩).2.questions.length =
        seededDB.questions.length + 1 :=
  ⟨by decide,
   (create_validation seededDB _).1 (by decide),
   by decide,
   ((create_validation seededDB _).2.2 (by decide)).2⟩

/-! ## C5 — questions by category -/

/-- C5 counterexample: when the category id resolves to no category row
but a stored question still references it (a state the spec's own data
model admits, since referential integrity is delegated to storage), the
response is the 500 envelope — `None.type` raises `AttributeError` — and
not NotFound as claimed. -/
theorem byCategory_dangling_counterexample :
    (get_questions_by_category danglingDB 99).status = 500 ∧
      (get_questions_by_category danglingDB 99).status ≠ 404 ∧
      danglingDB.categories.find? (fun c => c.id == 99) = none :=
  ⟨rfl, by decide, rfl⟩

/-- C5 (amended): if no stored question references category `cid` —
whether or not `cid` resolves to a category row — the response is the
NotFound envelope (so the two zero-question failure causes remain
indistinguishable); if questions reference `cid` and `cid` resolves, the
response lists exactly those questions with `totalQuestions` their count
and `currentCategory` the resolved label (its type string, never the
id); if questions reference `cid` but `cid` resolves to no category row,
the handler fails with the 500 envelope (unhandled `AttributeError`). -/
theorem byCategory_contract (st : DB) (cid : Nat) :
    (st.questions.filter (fun q => q.category == cid) = [] →
      get_questions_by_category st cid = not_found) ∧
    (st.questions.filter (fun q => q.category == cid) ≠ [] →
      ∀ c, st.categories.find? (fun c' => c'.id == cid) = some c →
        get_questions_by_category st cid =
          ⟨200, .obj [("success", .bool true),
            ("questions", .arr ((st.questions.filter
              (fun q => q.category == cid)).map Question.format)),
            ("totalQuestions", .num ((st.questions.filter
              (fun q => q.category == cid)).length : Int)),
            ("currentCategory", .str c.type)]⟩) ∧
    (st.questions.filter (fun q => q.category == cid) ≠ [] →
      st.categories.find? (fun c' => c'.id == cid) = none →
        get_questions_by_category st cid = internal_server_error) := by
  refine ⟨fun h0 => ?_, fun hne c hc => ?_, fun hne hnone => ?_⟩
  · unfold get_questions_by_category
    dsimp only
    rw [if_pos (by rw [h0]; rfl)]
  · unfold get_questions_by_category
    dsimp only
    rw [if_neg (by simp [List.length_eq_zero, hne]), hc]
    simp [List.length_map]
  · unfold get_questions_by_category
    dsimp only
    rw [if_neg (by simp [List.length_eq_zero, hne]), hnone]

/-- Witness for `byCategory_contract`: category 1 of the one-question
state resolves to "Science" and is served with its single question. -/
theorem byCategory_contract_witness :
    searchDB.questions.filter (fun q => q.category == 1) ≠ [] ∧
      searchDB.categories.find? (fun c' => c'.id == 1) = some ⟨1, "Science"⟩ ∧
      get_questions_by_category searchDB 1 =
        ⟨200, .obj [("success", .bool true),
          ("questions", .arr ((searchDB.questions.filter
            (fun q => q.category == 1)).map Question.format)),
          ("totalQuestions", .num ((searchDB.questions.filter
            (fun q => q.category == 1)).length : Int)),
          ("currentCategory", .str "Science")]⟩ :=
  ⟨by decide, by decide,
   (byCategory_contract searchDB 1).2.1 (by decide) ⟨1, "Science"⟩ (by decide)⟩

/-! ## C4 — search -/

/-- For a term free of wildcards and of the escape character, the
trailing `%` of the LIKE pattern makes the remaining match exactly a
case-insensitive front match. -/
lemma sqlLikeMatch_of_plain (t s : List Char) :
    (∀ c ∈ t, c ≠ '%' ∧ c ≠ '_' ∧ c ≠ '\\') →
      sqlLikeMatch (t ++ ['%']) s = ciSubstringPre t s := by
  induction t generalizing s with
  | nil =>
      intro _
      have key : sqlLikeMatch (([] : List Char) ++ ['%']) s =
          s.tails.any (fun suff => sqlLikeMatch [] suff) := rfl
      rw [key]
      exact List.any_eq_true.mpr ⟨[], (List.mem_tails _ _).mpr List.nil_suffix, rfl⟩
  | cons c t ih =>
      intro ht
      have hc : c ≠ '%' ∧ c ≠ '_' ∧ c ≠ '\\' := ht c (by simp)
      have ht' : ∀ x ∈ t, x ≠ '%' ∧ x ≠ '_' ∧ x ≠ '\\' :=
        fun x hx => ht x (by simp [hx])
      cases s with
      | nil => simp [sqlLikeMatch, ciSubstringPre, hc.1, hc.2.1, hc.2.2]
      | cons d s' =>
          simp [sqlLikeMatch, ciSubstringPre, hc.1, hc.2.1, hc.2.2, ih s' ht']

/-- For a term free of wildcards and of the escape character, the full
`ilike` pattern `%term%` matches a string exactly when the term is a
case-insensitive substring of it. -/
lemma sqlLikeMatch_pattern (t s : List Char)
    (ht : ∀ c ∈ t, c ≠ '%' ∧ c ≠ '_' ∧ c ≠ '\\') :
    sqlLikeMatch ('%' :: t ++ ['%']) s = ciSubstring t s := by
  have key : sqlLikeMatch ('%' :: t ++ ['%']) s =
      s.tails.any (fun suff => sqlLikeMatch (t ++ ['%']) suff) := rfl
  rw [key, ciSubstring]
  exact congrArg (List.any s.tails)
    (funext fun s' => sqlLikeMatch_of_plain t s' ht)

/-- The escape character behaves as on PostgreSQL: the pattern `%a\b%`
matches `"ab"` (the escaped `b` is a literal `b`) and does not match the
literal text `a\b`. -/
lemma sqlLikeMatch_escape_behaviour :
    sqlLikeMatch (ilikePattern "a\\b") "ab".data = true ∧
      sqlLikeMatch (ilikePattern "a\\b") "a\\b".data = false :=
  ⟨rfl, rfl⟩

/-- C4 counterexample: the search term `"_"` matches zero questions as a
case-insensitive literal substring in the one-question state (its text
is `"a"`), so the claim requires NotFound — but `_` is a single-character
SQL wildcard inside the `ilike` pattern, so the handler answers 200. -/
theorem search_wildcard_counterexample :
    searchDB.questions.filter
        (fun q => ciSubstring "_".data q.question.data) = [] ∧
      (search_questions searchDB "_").status = 200 ∧
      (search_questions searchDB "_").status ≠ 404 :=
  ⟨by decide, rfl, by decide⟩

/-- C4 (amended): `search(t)` returns exactly the questions whose
question text matches the SQL `ILIKE` pattern `%t%` (answer text is never
consulted), with `totalQuestions` the number of matches and
`currentCategory` null on success, and the NotFound envelope when
nothing matches; for terms free of the SQL wildcard characters `%` and
`_` and of the default escape character `\`, the matched questions are
exactly those containing `t` as a case-insensitive substring of the
question text. -/
theorem search_contract (st : DB) (term : String) :
    (st.questions.filter
        (fun q => sqlLikeMatch (ilikePattern term) q.question.data) = [] →
      search_questions st term = not_found) ∧
    (st.questions.filter
        (fun q => sqlLikeMatch (ilikePattern term) q.question.data) ≠ [] →
      search_questions st term =
        ⟨200, .obj [("success", .bool true),
          ("questions", .arr ((st.questions.filter
            (fun q => sqlLikeMatch (ilikePattern term) q.question.data)).map
              Question.format)),
          ("totalQuestions", .num ((st.questions.filter
            (fun q => sqlLikeMatch (ilikePattern term) q.question.data)).length :
              Int)),
          ("currentCategory", .null)]⟩) ∧
    ((∀ c ∈ term.data, c ≠ '%' ∧ c ≠ '_' ∧ c ≠ '\\') →
      st.questions.filter
          (fun q => sqlLikeMatch (ilikePattern term) q.question.data) =
        st.questions.filter
          (fun q => ciSubstring term.data q.question.data)) := by
  refine ⟨fun h0 => ?_, fun hne => ?_, fun ht => ?_⟩
  · unfold search_questions
    dsimp only
    rw [if_pos (by rw [h0]; rfl)]
  · unfold search_questions
    dsimp only
    rw [if_neg (by simp [List.length_eq_zero, hne])]
    simp [List.length_map]
  · exact List.filter_congr fun q _ => sqlLikeMatch_pattern term.data q.question.data ht

/-- Witness for `search_contract`: searching `"A"` in the one-question
state (text `"a"`) matches case-insensitively and is served with the
match list, its count, and a null current category; the wildcard-free
equivalence applies to `"A"`. -/
theorem search_contract_witness :
    searchDB.questions.filter
        (fun q => sqlLikeMatch (ilikePattern "A") q.question.data) ≠ [] ∧
      search_questions searchDB "A" =
        ⟨200, .obj [("success", .bool true),
          ("questions", .arr ((searchDB.questions.filter
            (fun q => sqlLikeMatch (ilikePattern "A") q.question.data)).map
              Question.format)),
          ("totalQuestions", .num ((searchDB.questions.filter
            (fun q => sqlLikeMatch (ilikePattern "A") q.question.data)).length :
              Int)),
          ("currentCategory", .null)]⟩ ∧
      searchDB.questions.filter
          (fun q => sqlLikeMatch (ilikePattern "A") q.question.data) =
        searchDB.questions.filter
          (fun q => ciSubstring "A".data q.question.data) :=
  ⟨by decide, (search_contract searchDB "A").2.1 (by decide),
   (search_contract searchDB "A").2.2 (by decide)⟩

/-! ## C6 — deletion is permanent; deleting a missing id is 422 -/

/-- A record formatted from a question with a different id never carries
`"id" = i`. -/
lemma format_lookup_id_ne {q : Question} {i : Nat} (h : q.id ≠ i) :
    (q.format).lookup "id" ≠ some (.num i) := by
  intro hcontra
  have hid : (q.format).lookup "id" = some (.num q.id) := rfl
  rw [hid] at hcontra
  injection hcontra with heq
  injection heq with heq2
  exact h (by exact_mod_cast heq2)

/-- An id present in a filtered question table is present in the
original. -/
lemma mem_map_id_of_filter {qs : List Question} {p : Question → Bool} {i : Nat}
    (h : i ∈ (qs.filter p).map Question.id) : i ∈ qs.map Question.id := by
  obtain ⟨q, hq, hqi⟩ := List.mem_map.mp h
  exact List.mem_map.mpr ⟨q, (List.mem_filter.mp hq).1, hqi⟩

/-- Filtering the question table preserves well-formedness. -/
lemma WF_filter (st : DB) (p : Question → Bool) (hwf : st.WF) :
    DB.WF { st with questions := st.questions.filter p } := by
  refine ⟨fun q hq => hwf.1 q (List.mem_filter.mp hq).1, ?_⟩
  exact ((List.filter_sublist _).map Question.id).nodup hwf.2

/-- The deleted id does not survive the filter. -/
lemma not_mem_map_id_filter (qs : List Question) (qid : Nat) :
    qid ∉ (qs.filter (fun q => q.id != qid)).map Question.id := by
  intro hmem
  obtain ⟨q, hq, hqi⟩ := List.mem_map.mp hmem
  have hpred := (List.mem_filter.mp hq).2
  simp [hqi] at hpred

/-- Inserting a fresh-id question preserves the absence of any
below-counter id and preserves well-formedness. -/
lemma insert_preserves (st : DB) (i : Nat)
    (hab : i ∉ st.questions.map Question.id) (hlt : i < st.nextId)
    (hwf : st.WF) (q a : String) (d : Int) (c : Nat) :
    i ∉ (st.questions ++ [Question.mk st.nextId q a d c]).map Question.id ∧
      i < st.nextId + 1 ∧
      DB.WF { questions := st.questions ++ [Question.mk st.nextId q a d c],
              categories := st.categories, nextId := st.nextId + 1 } := by
  have hmap : i ∉ (st.questions ++ [Question.mk st.nextId q a d c]).map Question.id := by
    intro hmem
    rw [List.map_append] at hmem
    rcases List.mem_append.mp hmem with h1 | h2
    · exact hab h1
    · simp at h2
      omega
  have hbound : ∀ x ∈ st.questions ++ [Question.mk st.nextId q a d c],
      x.id < st.nextId + 1 := by
    intro x hx
    rcases List.mem_append.mp hx with h1 | h2
    · exact Nat.lt_trans (hwf.1 x h1) (Nat.lt_succ_self _)
    · rw [List.mem_singleton.mp h2]
      exact Nat.lt_succ_self _
  have hnd : ((st.questions ++ [Question.mk st.nextId q a d c]).map Question.id).Nodup := by
    rw [List.map_append, List.nodup_append]
    refine ⟨hwf.2, List.nodup_singleton _, ?_⟩
    intro x hx hx2
    obtain ⟨q', hq', hq'i⟩ := List.mem_map.mp hx
    have hb := hwf.1 q' hq'
    simp at hx2
    omega
  exact ⟨hmap, by omega, hbound, hnd⟩

/-- The stored state after `create_question` is either unchanged or the
fresh-id question appended. -/
lemma create_question_state (st : DB) (data : CreatePayload) :
    (create_question st data).2 = st ∨
      ∃ q a d c, (create_question st data).2 =
        { questions := st.questions ++ [Question.mk st.nextId q a d c],
          categories := st.categories, nextId := st.nextId + 1 } := by
  rcases data with ⟨_ | ⟨_ | q⟩, _ | ⟨_ | a⟩, _ | ⟨_ | d⟩, _ | ⟨_ | c⟩⟩ <;>
    first
      | exact Or.inl rfl
      | exact Or.inr ⟨q, a, d, c, rfl⟩

/-- One request never resurrects an id that is absent and below the
fresh-id counter. -/
lemma handle_preserves_absent (st : DB) (req : Request) (i : Nat)
    (hab : i ∉ st.questions.map Question.id) (hlt : i < st.nextId)
    (hwf : st.WF) :
    i ∉ (handle st req).2.questions.map Question.id ∧
      i < (handle st req).2.nextId ∧ (handle st req).2.WF := by
  cases req with
  | getCategories => exact ⟨hab, hlt, hwf⟩
  | getQuestions page => exact ⟨hab, hlt, hwf⟩
  | searchQuestions term => exact ⟨hab, hlt, hwf⟩
  | getQuestionsByCategory cid => exact ⟨hab, hlt, hwf⟩
  | postQuizzes prev cid r => exact ⟨hab, hlt, hwf⟩
  | deleteQuestion qid =>
      show i ∉ (delete_question st qid).2.questions.map Question.id ∧
        i < (delete_question st qid).2.nextId ∧ (delete_question st qid).2.WF
      unfold delete_question
      cases hfind : st.questions.find? (fun q => q.id == qid) with
      | none => exact ⟨hab, hlt, hwf⟩
      | some qf =>
          exact ⟨fun hmem => hab (mem_map_id_of_filter hmem), hlt,
            WF_filter st _ hwf⟩
  | postQuestion data =>
      show i ∉ (create_question st data).2.questions.map Question.id ∧
        i < (create_question st data).2.nextId ∧ (create_question st data).2.WF
      rcases create_question_state st data with hsame | ⟨q, a, d, c, heq⟩
      · rw [hsame]
        exact ⟨hab, hlt, hwf⟩
      · rw [heq]
        exact insert_preserves st i hab hlt hwf q a d c

/-- A whole request sequence never resurrects an id that is absent and
below the fresh-id counter. -/
lemma runAll_preserves_absent (reqs : List Request) (st : DB) (i : Nat)
    (hab : i ∉ st.questions.map Question.id) (hlt : i < st.nextId)
    (hwf : st.WF) :
    i ∉ (runAll st reqs).questions.map Question.id := by
  induction reqs generalizing st with
  | nil => exact hab
  | cons req reqs ih =>
      obtain ⟨h1, h2, h3⟩ := handle_preserves_absent st req i hab hlt hwf
      exact ih (handle st req).2 h1 h2 h3

/-- Every record in a `GET /questions` response is formatted from a
stored question. -/
lemma questionsArrOf_get_questions (st : DB) (page : Int) :
    ∀ j ∈ questionsArrOf (get_questions st page),
      ∃ q ∈ st.questions, j = q.format := by
  intro j hj
  unfold get_questions at hj
  dsimp only at hj
  by_cases hc : (pySlice (st.questions.map Question.format)
      ((page - 1) * 10) ((page - 1) * 10 + 10)).length = 0
  · rw [if_pos hc] at hj
    simp only [show questionsArrOf not_found = [] from rfl] at hj
    exact absurd hj (List.not_mem_nil _)
  · rw [if_neg hc] at hj
    have harr : questionsArrOf ⟨200, .obj [("success", .bool true),
        ("questions", .arr (pySlice (st.questions.map Question.format)
          ((page - 1) * 10) ((page - 1) * 10 + 10))),
        ("totalQuestions", .num (st.questions.map Question.format).length),
        ("categories", categoriesJson st.categories),
        ("currentCategory", .str "")]⟩ =
      pySlice (st.questions.map Question.format)
        ((page - 1) * 10) ((page - 1) * 10 + 10) := rfl
    rw [harr] at hj
    have hsub : List.Sublist
        (pySlice (st.questions.map Question.format)
          ((page - 1) * 10) ((page - 1) * 10 + 10))
        (st.questions.map Question.format) :=
      (List.drop_sublist _ _).trans (List.take_sublist _ _)
    obtain ⟨q, hq, hqe⟩ := List.mem_map.mp (hsub.subset hj)
    exact ⟨q, hq, hqe.symm⟩

/-- Every record in a `GET /categories/id/questions` response is
formatted from a stored question. -/
lemma questionsArrOf_byCategory (st : DB) (cid : Nat) :
    ∀ j ∈ questionsArrOf (get_questions_by_category st cid),
      ∃ q ∈ st.questions, j = q.format := by
  intro j hj
  unfold get_questions_by_category at hj
  dsimp only at hj
  by_cases hc : ((st.questions.filter
      (fun q => q.category == cid)).map Question.format).length = 0
  · rw [if_pos hc] at hj
    simp only [show questionsArrOf not_found = [] from rfl] at hj
    exact absurd hj (List.not_mem_nil _)
  · rw [if_neg hc] at hj
    cases hfind : st.categories.find? (fun c' => c'.id == cid) with
    | none =>
        rw [hfind] at hj
        simp only [show questionsArrOf internal_server_error = [] from rfl] at hj
        exact absurd hj (List.not_mem_nil _)
    | some c =>
        rw [hfind] at hj
        have harr : questionsArrOf ⟨200, .obj [("success", .bool true),
            ("questions", .arr ((st.questions.filter
              (fun q => q.category == cid)).map Question.format)),
            ("totalQuestions", .num ((st.questions.filter
              (fun q => q.category == cid)).map Question.format).length),
            ("currentCategory", .str c.type)]⟩ =
          (st.questions.filter (fun q => q.category == cid)).map
            Question.format := rfl
        rw [harr] at hj
        obtain ⟨q, hq, hqe⟩ := List.mem_map.mp hj
        exact ⟨q, (List.mem_filter.mp hq).1, hqe.symm⟩

/-- C6: deleting an existing question id answers 200 and removes the
question permanently — after any subsequent request sequence its id is
absent from the stored questions, and no later `GET /questions` or
`GET /categories/id/questions` response contains a record with that id;
deleting a nonexistent id answers with the Unprocessable envelope (422,
not NotFound) and leaves the stored state unchanged. -/
theorem delete_contract (st : DB) (question_id : Nat) (hwf : st.WF) :
    (question_id ∈ st.questions.map Question.id →
      (delete_question st question_id).1.status = 200 ∧
      (∀ reqs : List Request,
        question_id ∉
          (runAll (delete_question st question_id).2 reqs).questions.map
            Question.id) ∧
      (∀ reqs : List Request, ∀ page : Int,
        ∀ j ∈ questionsArrOf
            (get_questions (runAll (delete_question st question_id).2 reqs) page),
          j.lookup "id" ≠ some (.num question_id)) ∧
      (∀ reqs : List Request, ∀ cid : Nat,
        ∀ j ∈ questionsArrOf
            (get_questions_by_category
              (runAll (delete_question st question_id).2 reqs) cid),
          j.lookup "id" ≠ some (.num question_id))) ∧
    (question_id ∉ st.questions.map Question.id →
      delete_question st question_id = (unprocessable_entity, st)) := by
  constructor
  · intro hmem
    obtain ⟨q0, hq0, hq0id⟩ := List.mem_map.mp hmem
    cases hfindEq : st.questions.find? (fun q => q.id == question_id) with
    | none =>
        have := List.find?_eq_none.mp hfindEq q0 hq0
        simp [hq0id] at this
    | some qf =>
        have hst' : (delete_question st question_id).2 =
            { st with questions :=
                st.questions.filter (fun q => q.id != question_id) } := by
          unfold delete_question
          rw [hfindEq]
        have hresp : (delete_question st question_id).1.status = 200 := by
          unfold delete_question
          rw [hfindEq]
        have hab : question_id ∉
            (delete_question st question_id).2.questions.map Question.id := by
          rw [hst']
          exact not_mem_map_id_filter st.questions question_id
        have hlt : question_id < (delete_question st question_id).2.nextId := by
          rw [hst']
          show question_id < st.nextId
          have h1 := hwf.1 q0 hq0
          omega
        have hwf' : (delete_question st question_id).2.WF := by
          rw [hst']
          exact WF_filter st _ hwf
        have habs : ∀ reqs : List Request,
            question_id ∉
              (runAll (delete_question st question_id).2 reqs).questions.map
                Question.id :=
          fun reqs => runAll_preserves_absent reqs _ question_id hab hlt hwf'
        refine ⟨hresp, habs, ?_, ?_⟩
        · intro reqs page j hj
          obtain ⟨q, hq, hje⟩ := questionsArrOf_get_questions _ page j hj
          rw [hje]
          apply format_lookup_id_ne
          intro hqid
          exact habs reqs (List.mem_map.mpr ⟨q, hq, hqid⟩)
        · intro reqs cid j hj
          obtain ⟨q, hq, hje⟩ := questionsArrOf_byCategory _ cid j hj
          rw [hje]
          apply format_lookup_id_ne
          intro hqid
          exact habs reqs (List.mem_map.mpr ⟨q, hq, hqid⟩)
  · intro hab
    have hfind : st.questions.find? (fun q => q.id == question_id) = none := by
      apply List.find?_eq_none.mpr
      intro x hx hbeq
      have hxid : x.id = question_id := by simpa using hbeq
      exact hab (List.mem_map.mpr ⟨x, hx, hxid⟩)
    unfold delete_question
    rw [hfind]

/-- Witness for `delete_contract`: deleting the only question (id 1)
answers 200 and the id stays gone across a later create and delete;
deleting the missing id 5 answers the Unprocessable envelope with the
state unchanged. -/
theorem delete_contract_witness :
    1 ∈ searchDB.questions.map Question.id ∧
      (delete_question searchDB 1).1.status = 200 ∧
      1 ∉ (runAll (delete_question searchDB 1).2
        [.postQuestion ⟨some (some "x"), some (some "y"), some (some 1),
          some (some 1)⟩, .deleteQuestion 2]).questions.map Question.id ∧
      delete_question searchDB 5 = (unprocessable_entity, searchDB) := by
  have hwf : searchDB.WF := ⟨by decide, by decide⟩
  have h1 := (delete_contract searchDB 1 hwf).1 (by decide)
  exact ⟨by decide, h1.1, h1.2.1 _, (delete_contract searchDB 5 hwf).2 (by decide)⟩

end Trivia
